import Mathlib

/-!
Verification development for the tui-meshcore session layer.

Shallow embedding of the Python sources under `src/tui_meshcore/`:
hex helpers and SHA-256 model `hashlib` / `bytes.hex` / `bytes.fromhex`,
followed by models of `database.py`, `mesh_service.py`, `identity.py`,
`mock_radio.py` and `app.py` routines, and theorems about them.
Bytes are modelled as `List Nat` (each element a byte value).
-/

-- ===========================================================================
-- § Hex helpers (Python `bytes.hex()`, `"%02X" % b`, `bytes.fromhex`)
-- ===========================================================================

/-- Lower-case hex digit for a value `n < 16` (as produced by `bytes.hex()`). -/
def hexDigitLower (n : Nat) : Char :=
  Char.ofNat (if n < 10 then 48 + n else 87 + n)

/-- Upper-case hex digit for a value `n < 16` (as produced by `"%02X"`). -/
def hexDigitUpper (n : Nat) : Char :=
  Char.ofNat (if n < 10 then 48 + n else 55 + n)

/-- One byte as two lower-case hex digits. -/
def byteToHexLower (b : Nat) : String :=
  String.mk [hexDigitLower (b / 16 % 16), hexDigitLower (b % 16)]

/-- One byte as two upper-case hex digits — Python `f"{b:02X}"`. -/
def byteToHexUpper (b : Nat) : String :=
  String.mk [hexDigitUpper (b / 16 % 16), hexDigitUpper (b % 16)]

/-- Python `bytes.hex()`: the bytes as a lower-case hex string. -/
def bytesToHexLower (bs : List Nat) : String :=
  String.join (bs.map byteToHexLower)

/-- Python truthiness of an optional string: `None` and `""` are falsy. -/
def truthyOpt (s : Option String) : Bool :=
  match s with
  | some v => v ≠ ""
  | none => false

/-- Value of one hex digit character, accepting `0-9`, `a-f`, `A-F`. -/
def hexCharVal (c : Char) : Option Nat :=
  if 48 ≤ c.toNat ∧ c.toNat ≤ 57 then some (c.toNat - 48)
  else if 97 ≤ c.toNat ∧ c.toNat ≤ 102 then some (c.toNat - 87)
  else if 65 ≤ c.toNat ∧ c.toNat ≤ 70 then some (c.toNat - 55)
  else none

/-- Python `bytes.fromhex` over the character list: spaces are skipped
between byte pairs, each byte needs two adjacent hex digits, anything else
raises `ValueError` (modelled as `none`). -/
def pyFromhexAux : List Char → Option (List Nat)
  | [] => some []
  | c1 :: rest1 =>
    if c1.toNat = 32 then pyFromhexAux rest1
    else
      match rest1 with
      | c2 :: rest =>
        match hexCharVal c1, hexCharVal c2 with
        | some hi, some lo =>
          match pyFromhexAux rest with
          | some bs => some ((16 * hi + lo) :: bs)
          | none => none
        | _, _ => none
      | [] => none

/-- Python `bytes.fromhex` on a string. -/
def pyFromhex (s : String) : Option (List Nat) :=
  pyFromhexAux s.data

-- ===========================================================================
-- § SHA-256 (`hashlib.sha256`, used by `derive_channel_secret`)
-- ===========================================================================

/-- Reduce modulo 2^32 (32-bit machine word). -/
def mask32 (x : Nat) : Nat := x % 4294967296

/-- Right rotation of a 32-bit word by `n` bits. -/
def rotr32 (n x : Nat) : Nat := mask32 ((x >>> n) ||| (x <<< (32 - n)))

/-- SHA-256 choice function. -/
def shaCh (x y z : Nat) : Nat := (x &&& y) ^^^ ((x ^^^ 4294967295) &&& z)

/-- SHA-256 majority function. -/
def shaMaj (x y z : Nat) : Nat := (x &&& y) ^^^ (x &&& z) ^^^ (y &&& z)

def bigSigma0 (x : Nat) : Nat := rotr32 2 x ^^^ rotr32 13 x ^^^ rotr32 22 x

def bigSigma1 (x : Nat) : Nat := rotr32 6 x ^^^ rotr32 11 x ^^^ rotr32 25 x

def smallSigma0 (x : Nat) : Nat := rotr32 7 x ^^^ rotr32 18 x ^^^ (x >>> 3)

def smallSigma1 (x : Nat) : Nat := rotr32 17 x ^^^ rotr32 19 x ^^^ (x >>> 10)

/-- The 64 SHA-256 round constants (decimal). -/
def shaK : List Nat :=
  [1116352408, 1899447441, 3049323471, 3921009573, 961987163,
   1508970993, 2453635748, 2870763221, 3624381080, 310598401,
   607225278, 1426881987, 1925078388, 2162078206, 2614888103,
   3248222580, 3835390401, 4022224774, 264347078, 604807628,
   770255983, 1249150122, 1555081692, 1996064986, 2554220882,
   2821834349, 2952996808, 3210313671, 3336571891, 3584528711,
   113926993, 338241895, 666307205, 773529912, 1294757372,
   1396182291, 1695183700, 1986661051, 2177026350, 2456956037,
   2730485921, 2820302411, 3259730800, 3345764771, 3516065817,
   3600352804, 4094571909, 275423344, 430227734, 506948616,
   659060556, 883997877, 958139571, 1322822218, 1537002063,
   1747873779, 1955562222, 2024104815, 2227730452, 2361852424,
   2428436474, 2756734187, 3204031479, 3329325298]

/-- The SHA-256 initial hash value (decimal). -/
def shaH0 : List Nat :=
  [1779033703, 3144134277, 1013904242, 2773480762,
   1359893119, 2600822924, 528734635, 1541459225]

/-- Big-endian 32-bit words from a byte list (groups of 4). -/
def wordsOfBytes : List Nat → List Nat
  | b0 :: b1 :: b2 :: b3 :: rest =>
    (((b0 * 256 + b1) * 256 + b2) * 256 + b3) :: wordsOfBytes rest
  | _ => []

/-- Extend the 16-word message schedule by `n` further words. -/
def extendSchedule : List Nat → Nat → List Nat
  | w, 0 => w
  | w, n + 1 =>
    let t := w.length
    let x := mask32 (smallSigma1 (w.getD (t - 2) 0) + w.getD (t - 7) 0 +
                     smallSigma0 (w.getD (t - 15) 0) + w.getD (t - 16) 0)
    extendSchedule (w ++ [x]) n

/-- One SHA-256 compression round on the 8-word working state. -/
def compressStep (st : List Nat) (kw : Nat × Nat) : List Nat :=
  match st with
  | [a, b, c, d, e, f, g, h] =>
    let t1 := mask32 (h + bigSigma1 e + shaCh e f g + kw.1 + kw.2)
    let t2 := mask32 (bigSigma0 a + shaMaj a b c)
    [mask32 (t1 + t2), a, b, c, mask32 (d + t1), e, f, g]
  | other => other

/-- Compress one 64-byte block into the running hash. -/
def compressBlock (h : List Nat) (block : List Nat) : List Nat :=
  let w := extendSchedule (wordsOfBytes block) 48
  let st := (shaK.zip w).foldl compressStep h
  (h.zip st).map (fun p => mask32 (p.1 + p.2))

/-- Split into `n` blocks of 64 bytes. -/
def toBlocks : List Nat → Nat → List (List Nat)
  | _, 0 => []
  | bs, n + 1 => bs.take 64 :: toBlocks (bs.drop 64) n

/-- A `Nat` as 8 big-endian bytes (the SHA-256 length field). -/
def be64 (n : Nat) : List Nat :=
  [n >>> 56 % 256, n >>> 48 % 256, n >>> 40 % 256, n >>> 32 % 256,
   n >>> 24 % 256, n >>> 16 % 256, n >>> 8 % 256, n % 256]

/-- A 32-bit word as 4 big-endian bytes. -/
def be32Bytes (w : Nat) : List Nat :=
  [w >>> 24 % 256, w >>> 16 % 256, w >>> 8 % 256, w % 256]

/-- SHA-256 digest (32 bytes) of a byte message. -/
def sha256Bytes (msg : List Nat) : List Nat :=
  let padZeros := (64 - (msg.length + 9) % 64) % 64
  let padded := msg ++ [128] ++ List.replicate padZeros 0 ++ be64 (8 * msg.length)
  let blocks := toBlocks padded (padded.length / 64)
  ((blocks.foldl compressBlock shaH0).map be32Bytes).flatten

/-- UTF-8 encoding of one character (Python `str.encode("utf-8")`). -/
def utf8EncodeChar (c : Char) : List Nat :=
  let n := c.toNat
  if n < 128 then [n]
  else if n < 2048 then [192 ||| (n >>> 6), 128 ||| (n &&& 63)]
  else if n < 65536 then
    [224 ||| (n >>> 12), 128 ||| ((n >>> 6) &&& 63), 128 ||| (n &&& 63)]
  else
    [240 ||| (n >>> 18), 128 ||| ((n >>> 12) &&& 63),
     128 ||| ((n >>> 6) &&& 63), 128 ||| (n &&& 63)]

/-- UTF-8 encoding of a string. -/
def utf8Encode (s : String) : List Nat :=
  (s.data.map utf8EncodeChar).flatten

/-- `hashlib.sha256(s.encode("utf-8")).hexdigest()`. -/
def sha256HexDigest (s : String) : String :=
  bytesToHexLower (sha256Bytes (utf8Encode s))

-- ===========================================================================
-- § Channel secret derivation (`screens/dialogs.py`)
-- ===========================================================================

/-- The `_WELL_KNOWN_SECRETS` table: ecosystem-wide constants, one entry. -/
def wellKnownSecret (name : String) : Option String :=
  if name = "Public" then some "8b3387e9c5cdea6ac9e5edbaa115cd72" else none

/-- `derive_channel_secret`: well-known secret for a reserved name, else the
SHA-256 hex digest of the name truncated to 32 hex characters. -/
def deriveChannelSecret (name : String) : String :=
  match wellKnownSecret name with
  | some s => s
  | none => (sha256HexDigest name).take 32

-- ===========================================================================
-- § Persistent store rows (`database.py`)
-- ===========================================================================

/-- A row of the `contacts` table.  The claim-relevant columns are modelled:
`node_id` (UNIQUE key), `name`, `public_key` and `rssi`;  `last_seen` and
`snr` are REAL (floating-point) columns and are left out of the model. -/
structure ContactRow where
  node_id : String
  name : Option String
  public_key : Option String
  rssi : Option Int
deriving DecidableEq

/-- SQL `COALESCE(a, b)`. -/
def coalesce {α : Type} (a b : Option α) : Option α :=
  match a with
  | some x => some x
  | none => b

/-- `DatabaseManager.upsert_contact`: `INSERT ... ON CONFLICT(node_id) DO
UPDATE SET name = COALESCE(excluded.name, name), public_key =
COALESCE(excluded.public_key, public_key), rssi = COALESCE(excluded.rssi,
rssi)`.  The table is unique by `node_id`, so a conflict updates the one
matching row in place; otherwise a new row is appended. -/
def upsertContact (rows : List ContactRow) (nodeId : String)
    (name publicKey : Option String) (rssi : Option Int) : List ContactRow :=
  if rows.any (fun r => r.node_id == nodeId) then
    rows.map (fun r =>
      if r.node_id == nodeId then
        ⟨r.node_id, coalesce name r.name, coalesce publicKey r.public_key,
         coalesce rssi r.rssi⟩
      else r)
  else rows ++ [⟨nodeId, name, publicKey, rssi⟩]

/-- A row of the `channels` table: `name` (UNIQUE), nullable `secret`,
`is_private`. -/
structure DbChannel where
  name : String
  secret : Option String
  isPrivate : Bool
deriving DecidableEq

-- ===========================================================================
-- § Contact adapter (`mesh_service.py`: Contact, ContactDBAdapter)
-- ===========================================================================

/-- The `Contact` dataclass handed to pyMC_core handlers. -/
structure Contact where
  public_key : String
  name : String
  out_path : List Int
  type : Nat
deriving DecidableEq

/-- `ContactDBAdapter.refresh`: rebuild the in-memory list from the database
rows — keep only rows whose `public_key` is truthy (present and non-empty),
and display `name` falls back to `node_id` when `name` is falsy. -/
def refreshContacts (rows : List ContactRow) : List Contact :=
  rows.filterMap (fun row =>
    match row.public_key with
    | some pk =>
      if pk = "" then none
      else
        some ⟨pk,
              (match row.name with
               | some n => if n = "" then row.node_id else n
               | none => row.node_id),
              [], 0⟩
    | none => none)

/-- `ContactDBAdapter.add_contact`: upsert into the store (with `node_id :=
public_key`), then append to the in-memory list unless an entry with the
same `public_key` is already present.  Returns the new store and list. -/
def addContactA (rows : List ContactRow) (contacts : List Contact)
    (publicKey name : String) : List ContactRow × List Contact :=
  (upsertContact rows publicKey (some name) (some publicKey) none,
   if contacts.any (fun existing => existing.public_key == publicKey) then contacts
   else contacts ++ [⟨publicKey, name, [], 0⟩])

-- ===========================================================================
-- § Sender resolution (`MeshService._resolve_sender`)
-- ===========================================================================

/-- Display string returned for a matched contact: `c.name or
c.public_key[:16]`. -/
def contactDisplay (c : Contact) : String :=
  if c.name = "" then c.public_key.take 16 else c.name

/-- Whether a contact matches the source hash: non-empty key, key parses as
hex with at least one byte, and the first byte equals the hash. -/
def contactMatches (c : Contact) (srcHash : Nat) : Bool :=
  c.public_key ≠ "" &&
    (match pyFromhex c.public_key with
     | some (b :: _) => b == srcHash
     | _ => false)

/-- The scan inside `_resolve_sender`: first contact whose non-empty key
hex-decodes and whose first byte equals the hash wins; hex errors
(`ValueError`) and empty decodes (`IndexError`) are skipped. -/
def resolveScan (contacts : List Contact) (srcHash : Nat) : String × String :=
  match contacts with
  | [] => ("unknown-" ++ byteToHexUpper srcHash, "")
  | c :: cs =>
    if contactMatches c srcHash then (contactDisplay c, c.public_key)
    else resolveScan cs srcHash

/-- `MeshService._resolve_sender`: `("?", "")` without an adapter or for a
payload of fewer than two bytes; otherwise scan the contacts against
`payload[1]`. -/
def resolveSender (contactDb : Option (List Contact)) (payload : List Nat) :
    String × String :=
  match contactDb with
  | none => ("?", "")
  | some contacts =>
    if payload.length < 2 then ("?", "")
    else resolveScan contacts (payload.getD 1 0)

-- ===========================================================================
-- § Advertisement handling (`MeshService._handle_advert`, `_ensure_contact`)
-- ===========================================================================

/-- The mapping returned by pyMC_core's `decode_appdata` — only the two keys
the service reads (`node_name`, `name`); a key can be absent (`none`). -/
structure AdvertDecoded where
  node_name : Option String
  name : Option String
deriving DecidableEq

/-- `decoded.get("node_name") or decoded.get("name") or ""` (Python `or`
falls through both `None` and the empty string). -/
def advertName (d : AdvertDecoded) : String :=
  let n1 := d.node_name.getD ""
  if n1 = "" then d.name.getD "" else n1

/-- Protocol-engine constants and codec — external collaborators, passed in
as opaque parameters: `PUB_KEY_SIZE`, `TIMESTAMP_SIZE`, `SIGNATURE_SIZE`
and `decode_appdata` (an exception from the codec is modelled as `none`). -/
structure AdvertEnv where
  pubKeySize : Nat
  timestampSize : Nat
  signatureSize : Nat
  decodeAppdata : List Nat → Option AdvertDecoded

/-- The service state the advert path touches: the `contacts` table and the
contact adapter's in-memory list (`none` when no adapter was constructed). -/
structure MeshContactState where
  dbContacts : List ContactRow
  contactDb : Option (List Contact)
deriving DecidableEq

/-- Events posted to the UI by the contact paths (`mesh.contact.new` carries
`public_key` and `name`). -/
inductive MeshEventM where
  | contactNew (publicKey name : String)
deriving DecidableEq

/-- `existing.name = name` on the first list entry with the given key. -/
def updateFirstName : List Contact → String → String → List Contact
  | [], _, _ => []
  | c :: cs, pk, n =>
    if c.public_key = pk then { c with name := n } :: cs
    else c :: updateFirstName cs pk n

/-- `MeshService._ensure_contact`: no-op without an adapter; otherwise add a
new contact through the adapter, or update the stored name in place when
the advert carries a different non-empty name. -/
def ensureContact (st : MeshContactState) (publicKey name : String) :
    MeshContactState :=
  match st.contactDb with
  | none => st
  | some contacts =>
    match contacts.find? (fun c => c.public_key == publicKey) with
    | none =>
      let p := addContactA st.dbContacts contacts publicKey name
      ⟨p.1, some p.2⟩
    | some existing =>
      if name ≠ "" ∧ existing.name ≠ name then
        ⟨upsertContact st.dbContacts publicKey (some name) (some publicKey) none,
         some (updateFirstName contacts publicKey name)⟩
      else st

/-- `MeshService._handle_advert`: drop payloads shorter than the fixed
header, hex the leading `PUB_KEY_SIZE` bytes, decode the application data,
drop on codec failure or a missing/empty name, otherwise ensure the contact
and post exactly one `mesh.contact.new` event. -/
def handleAdvert (env : AdvertEnv) (st : MeshContactState)
    (payload : List Nat) : MeshContactState × List MeshEventM :=
  let headerLen := env.pubKeySize + env.timestampSize + env.signatureSize
  if payload.length < headerLen then (st, [])
  else
    let pubkeyHex := bytesToHexLower (payload.take env.pubKeySize)
    let appdata := payload.drop headerLen
    match env.decodeAppdata appdata with
    | none => (st, [])
    | some d =>
      let nm := advertName d
      if nm = "" then (st, [])
      else (ensureContact st pubkeyHex nm, [MeshEventM.contactNew pubkeyHex nm])

-- ===========================================================================
-- § Channel three-way sync (`app.py`: `MeshCoreApp._sync_channels_to_config`)
-- ===========================================================================

/-- A channel entry of the runtime configuration (always with a secret). -/
structure CfgChannel where
  name : String
  secret : String
deriving DecidableEq

/-- The filled secret for one store row: `ch.get("secret") or
derive_channel_secret(ch["name"])` — both a missing and an empty stored
secret fall through to the derivation. -/
def fillSecret (ch : DbChannel) : String :=
  match ch.secret with
  | some s => if s = "" then deriveChannelSecret ch.name else s
  | none => deriveChannelSecret ch.name

/-- The three views the sync touches: the store's channel rows (as returned
by `db.get_channels()`), the configuration's channel list, and the live
channel adapter (`none` when no running node exposes a `channel_db`). -/
structure SyncState where
  dbChannels : List DbChannel
  cfgChannels : List CfgChannel
  liveAdapter : Option (List CfgChannel)
deriving DecidableEq

/-- `MeshCoreApp._sync_channels_to_config`: read the store rows, build the
config list with missing secrets derived, `set_channels` + `save` on the
configuration, and push the same list into the live adapter when the node
is running.  The store rows themselves are only read, never written. -/
def syncChannelsToConfig (st : SyncState) : SyncState :=
  let cfg := st.dbChannels.map (fun ch => CfgChannel.mk ch.name (fillSecret ch))
  { dbChannels := st.dbChannels,
    cfgChannels := cfg,
    liveAdapter := st.liveAdapter.map (fun _ => cfg) }

-- ===========================================================================
-- § Identity seed (`identity.py`)
-- ===========================================================================

/-- `load_seed`: read the file and require exactly 32 bytes (`ValueError`
otherwise, modelled as `Except.error`). -/
def loadSeed (content : List Nat) : Except String (List Nat) :=
  if content.length = 32 then Except.ok content
  else Except.error "Identity seed must be 32 bytes"

/-- `load_or_create_seed` over an explicit file-system cell: the contents at
the path (`none` when absent) plus the bytes `os.urandom(32)` would yield.
Returns the seed and the file contents afterwards. -/
def loadOrCreateSeed (file : Option (List Nat)) (generated : List Nat) :
    Except String (List Nat × Option (List Nat)) :=
  match file with
  | some content =>
    match loadSeed content with
    | Except.ok s => Except.ok (s, some content)
    | Except.error e => Except.error e
  | none => Except.ok (generated, some generated)

-- ===========================================================================
-- § Session lifecycle (`MeshService.start/stop/send_channel_message/_run_node`)
-- ===========================================================================

/-- Which radio object `start` ends up with. -/
inductive RadioKind where
  | mock
  | real
deriving DecidableEq

/-- The environment `start` runs in: whether the configuration selects the
mock radio, whether the `pymc_core` dependency imports at all, and whether
real-radio and `MeshNode` construction succeed when attempted. -/
structure StartEnv where
  isMock : Bool
  pymcAvailable : Bool
  realRadioOk : Bool
  nodeInitOk : Bool
deriving DecidableEq

/-- The observable service state after `start`. -/
structure SessionState where
  radio : RadioKind
  fakeTraffic : Bool
  identitySome : Bool
  eventServiceSome : Bool
  nodeSome : Bool
  online : Bool
  errorEvents : List String
deriving DecidableEq

/-- `MeshService.start`: load-or-create the seed (a corrupt seed file
propagates), build the identity (`create_local_identity` returns `None`
when `pymc_core` is unavailable), pick the radio with fallback to a quiet
mock on real-radio failure (posting one `system.error`), and construct the
`MeshNode` only when an identity exists and `pymc_core` imports — only then
does `online` become true. -/
def startService (env : StartEnv) (file : Option (List Nat))
    (generated : List Nat) : Except String SessionState :=
  match loadOrCreateSeed file generated with
  | Except.error e => Except.error e
  | Except.ok _ =>
    let identitySome := env.pymcAvailable
    let radioPart : RadioKind × Bool × List String :=
      if env.isMock then (RadioKind.mock, true, [])
      else if env.realRadioOk then (RadioKind.real, false, [])
      else (RadioKind.mock, false, ["system.error"])
    let nodePart : Bool × Bool × List String :=
      if identitySome then
        if env.pymcAvailable then
          if env.nodeInitOk then (true, true, [])
          else (false, false, ["system.error"])
        else (false, false, [])
      else (false, false, [])
    Except.ok
      { radio := radioPart.1,
        fakeTraffic := radioPart.2.1,
        identitySome := identitySome,
        eventServiceSome := env.pymcAvailable,
        nodeSome := nodePart.1,
        online := nodePart.2.1,
        errorEvents := radioPart.2.2 ++ nodePart.2.2 }

/-- `MeshService.send_channel_message`: `False` when no node exists; with a
node, the engine call either yields a result mapping (`success` read with
default `False`) or raises — every exception is caught and becomes
`False`.  The channel name and text do not influence the node check. -/
def sendChannelMessage (nodeSome : Bool) (_channelName _text : String)
    (engineResult : Except String Bool) : Bool :=
  if nodeSome then
    match engineResult with
    | Except.ok success => success
    | Except.error _ => false
  else false

/-- How one run of the node loop body ends. -/
inductive RunOutcome where
  | ok
  | cancelled
  | err (msg : String)
deriving DecidableEq

/-- `MeshService._run_node`: `CancelledError` is swallowed; any other
exception is caught (the function still returns), `online` is set to
`False`, and the failure is only logged — no event is posted and nothing
restarts the loop.  Result: `online` afterwards and the events posted. -/
def runNode (outcome : RunOutcome) (online : Bool) : Bool × List String :=
  match outcome with
  | RunOutcome.ok => (online, [])
  | RunOutcome.cancelled => (online, [])
  | RunOutcome.err _ => (false, [])

/-- A cancellable task handle (only its cancelled flag is observable). -/
structure TaskHandle where
  cancelled : Bool
deriving DecidableEq

/-- The service state `stop` touches: `online`, the node task (kept, only
cancelled — `stop` never clears the field), whether the radio is a
`MockRadio`, and the mock's traffic-timer task. -/
structure StopState where
  online : Bool
  nodeTask : Option TaskHandle
  radioIsMock : Bool
  trafficTask : Option TaskHandle
deriving DecidableEq

/-- `MeshService.stop`: set `online := False`, cancel the node task if any
(awaiting it; the resulting `CancelledError` is swallowed), and for a mock
radio run `stop_fake_traffic`, which cancels and clears the traffic task. -/
def stopService (s : StopState) : StopState :=
  { online := false,
    nodeTask := s.nodeTask.map (fun t => { t with cancelled := true }),
    radioIsMock := s.radioIsMock,
    trafficTask := if s.radioIsMock then none else s.trafficTask }

-- ===========================================================================
-- § Mock radio (`mock_radio.py`)
-- ===========================================================================

/-- The observable `MockRadio` state: construction flag, `begin`/`sleep`
running flag, whether the traffic task is active, the receive queue
(an `asyncio.Queue()` constructed with no `maxsize`), and the TX log. -/
structure MockRadioState where
  fakeTraffic : Bool
  running : Bool
  trafficActive : Bool
  rxQueue : List (List Nat)
  txLog : List (List Nat)
deriving DecidableEq

/-- `MockRadio.__init__`. -/
def mockRadioInit (fakeTraffic : Bool) : MockRadioState :=
  ⟨fakeTraffic, false, false, [], []⟩

/-- One step of the Simulated Radio Harness: `begin`, `send`,
`start_fake_traffic`/`stop_fake_traffic`, a traffic-timer tick (a 32-byte
synthetic packet, only while running with the task active), `inject_rx`
(`put_nowait` — always succeeds, the queue is unbounded), `wait_for_rx`
consuming the head, and `sleep`. -/
inductive MockStep : MockRadioState → MockRadioState → Prop where
  | beginStep (s : MockRadioState) :
      MockStep s { s with running := true }
  | sendStep (s : MockRadioState) (data : List Nat) :
      MockStep s { s with txLog := s.txLog ++ [data] }
  | startTraffic (s : MockRadioState) :
      s.fakeTraffic = true → MockStep s { s with trafficActive := true }
  | stopTraffic (s : MockRadioState) :
      MockStep s { s with trafficActive := false }
  | trafficTick (s : MockRadioState) (data : List Nat) :
      s.running = true → s.trafficActive = true → data.length = 32 →
      MockStep s { s with rxQueue := s.rxQueue ++ [data] }
  | injectRx (s : MockRadioState) (data : List Nat) :
      MockStep s { s with rxQueue := s.rxQueue ++ [data] }
  | recvStep (s : MockRadioState) (d : List Nat) (rest : List (List Nat)) :
      s.running = true → s.rxQueue = d :: rest →
      MockStep s { s with rxQueue := rest }
  | sleepStep (s : MockRadioState) :
      MockStep s { s with running := false }

/-- Reachability of a harness state from a fresh `MockRadio(fake_traffic=True)`
(the configuration `MeshService.start` uses). -/
def MockReachable (s : MockRadioState) : Prop :=
  Relation.ReflTransGen MockStep (mockRadioInit true) s

-- ===========================================================================
-- § Shared helper lemmas
-- ===========================================================================

/-- A harness state with `n` injected packets queued. -/
def injectedState (n : Nat) : MockRadioState :=
  ⟨true, false, false, List.replicate n [0], []⟩

theorem injectedState_reachable (n : Nat) : MockReachable (injectedState n) := by
  induction n with
  | zero => exact Relation.ReflTransGen.refl
  | succ k ih =>
    refine Relation.ReflTransGen.tail ih ?_
    have h := MockStep.injectRx (injectedState k) [0]
    have he : ({ injectedState k with
        rxQueue := (injectedState k).rxQueue ++ [[0]] } : MockRadioState) =
        injectedState (k + 1) := by
      simp [injectedState, List.replicate_succ']
    exact he ▸ h

/-- The public keys `refresh` keeps are exactly the truthy `public_key`
column values, in row order. -/
def truthyKeys (rows : List ContactRow) : List String :=
  rows.filterMap (fun r =>
    match r.public_key with
    | some k => if k = "" then none else some k
    | none => none)

theorem refreshContacts_keys (rows : List ContactRow) :
    (refreshContacts rows).map (fun c => c.public_key) = truthyKeys rows := by
  induction rows with
  | nil => rfl
  | cons r rest ih =>
    simp only [refreshContacts, truthyKeys, List.filterMap_cons] at *
    cases hpk : r.public_key with
    | none => simpa using ih
    | some k =>
      by_cases hk : k = ""
      · simp only [hk, if_true, if_pos rfl]
        simpa using ih
      · simp only [if_neg hk]
        simpa using ih

theorem mem_refreshContacts_key_ne (rows : List ContactRow) (c : Contact)
    (hc : c ∈ refreshContacts rows) : c.public_key ≠ "" := by
  rw [refreshContacts, List.mem_filterMap] at hc
  obtain ⟨r, _, hfr⟩ := hc
  cases hpk : r.public_key with
  | none => simp [hpk] at hfr
  | some k =>
    by_cases hk : k = ""
    · simp [hpk, hk] at hfr
    · simp only [hpk, if_neg hk, Option.some.injEq] at hfr
      subst hfr
      exact hk

theorem updateFirstName_name_mem (cs : List Contact) (pk n : String)
    (hex : ∃ x ∈ cs, x.public_key = pk) :
    ∃ c ∈ updateFirstName cs pk n, c.name = n := by
  induction cs with
  | nil =>
    obtain ⟨x, hx, _⟩ := hex
    cases hx
  | cons c rest ih =>
    by_cases hc : c.public_key = pk
    · refine ⟨{ c with name := n }, ?_, rfl⟩
      simp [updateFirstName, hc]
    · simp only [updateFirstName, if_neg hc]
      obtain ⟨x, hx, hxpk⟩ := hex
      rcases List.mem_cons.mp hx with hx1 | hx2
      · subst hx1
        exact absurd hxpk hc
      · obtain ⟨y, hy, hyn⟩ := ih ⟨x, hx2, hxpk⟩
        exact ⟨y, List.mem_cons_of_mem c hy, hyn⟩

theorem ensureContact_name_mem (db : List ContactRow) (cs : List Contact)
    (pk n : String) (hn : n ≠ "") :
    ∃ cs2, (ensureContact ⟨db, some cs⟩ pk n).contactDb = some cs2 ∧
      ∃ c ∈ cs2, c.name = n := by
  simp only [ensureContact]
  cases hfind : cs.find? (fun c => c.public_key == pk) with
  | none =>
    refine ⟨(addContactA db cs pk n).2, rfl, ?_⟩
    have hany : cs.any (fun existing => existing.public_key == pk) = false := by
      rw [List.any_eq_false]
      intro x hx
      exact List.find?_eq_none.mp hfind x hx
    simp only [addContactA]
    rw [if_neg (by rw [hany]; exact Bool.false_ne_true)]
    exact ⟨⟨pk, n, [], 0⟩, by simp, rfl⟩
  | some existing =>
    have hmem := List.mem_of_find?_eq_some hfind
    have hpk : existing.public_key = pk := by
      have := List.find?_some hfind
      simpa using this
    by_cases hcond : n ≠ "" ∧ existing.name ≠ n
    · refine ⟨updateFirstName cs pk n, ?_,
        updateFirstName_name_mem cs pk n ⟨existing, hmem, hpk⟩⟩
      exact congrArg MeshContactState.contactDb (if_pos hcond)
    · refine ⟨cs, ?_, existing, hmem, ?_⟩
      · exact congrArg MeshContactState.contactDb (if_neg hcond)
      · push_neg at hcond
        exact hcond hn

-- ===========================================================================
-- § Claim theorems
-- ===========================================================================

/-- C6: for every path state and every valid 32-byte generation result,
`load_or_create_seed` followed by a second `load_or_create_seed` on the
same path returns the byte-identical seed the first call
generated-and-persisted or loaded, leaving the file unchanged. -/
theorem c6_load_or_create_idempotent (file : Option (List Nat))
    (generated generated2 seed : List Nat) (file2 : Option (List Nat))
    (hgen : generated.length = 32)
    (h : loadOrCreateSeed file generated = Except.ok (seed, file2)) :
    loadOrCreateSeed file2 generated2 = Except.ok (seed, file2) := by
  cases file with
  | none =>
    simp only [loadOrCreateSeed, Except.ok.injEq, Prod.mk.injEq] at h
    obtain ⟨hs, hf⟩ := h
    subst hs
    subst hf
    simp [loadOrCreateSeed, loadSeed, hgen]
  | some content =>
    simp only [loadOrCreateSeed, loadSeed] at h
    by_cases hlen : content.length = 32
    · simp only [hlen, if_true, Except.ok.injEq, Prod.mk.injEq] at h
      obtain ⟨hs, hf⟩ := h
      subst hs
      subst hf
      simp [loadOrCreateSeed, loadSeed, hlen]
    · simp [hlen] at h

theorem c6_load_or_create_idempotent_witness :
    (List.replicate 32 7).length = 32 ∧
    loadOrCreateSeed (some (List.replicate 32 7)) [] =
      Except.ok (List.replicate 32 7, some (List.replicate 32 7)) ∧
    loadOrCreateSeed (some (List.replicate 32 7)) [9] =
      Except.ok (List.replicate 32 7, some (List.replicate 32 7)) := by
  refine ⟨by decide, rfl, ?_⟩
  exact c6_load_or_create_idempotent (some (List.replicate 32 7)) (List.replicate 32 7)
    [9] (List.replicate 32 7) (some (List.replicate 32 7)) (by decide) rfl

/-- C7: `stop()` is idempotent — running it twice equals running it once;
each run leaves the session stopped (`online = false`), cancels the node
task when one exists (keeping the handle), and clears the mock radio's
traffic task exactly when the radio is simulated.  The model is a total
function: the `CancelledError` raised while awaiting the cancelled task is
swallowed by the code, so neither call raises. -/
theorem c7_stop_idempotent (s : StopState) :
    stopService (stopService s) = stopService s ∧
    (stopService s).online = false ∧
    (stopService s).nodeTask = s.nodeTask.map (fun t => { t with cancelled := true }) ∧
    (stopService s).trafficTask = (if s.radioIsMock then none else s.trafficTask) := by
  refine ⟨?_, rfl, rfl, rfl⟩
  cases s with
  | mk online nodeTask radioIsMock trafficTask =>
    cases nodeTask <;> cases radioIsMock <;> simp [stopService]

/-- C5 counterexample: when the run loop ends with a non-cancellation
exception the code demotes the session (`online := false`) but posts no
event at all — in particular not the one `SystemError` event the claim
requires, so the event list is empty rather than a singleton. -/
theorem c5_counterexample :
    runNode (RunOutcome.err "boom") true = (false, []) ∧
    (runNode (RunOutcome.err "boom") true).2.length ≠ 1 := by
  constructor
  · rfl
  · decide

/-- C5 amended: every exception other than cancellation escaping the run
loop is caught (the model is a total function — `_run_node` returns
normally), the session is demoted to `online = false`, the loop terminates
without restarting, and the failure is only logged: no `SystemError` (or
any other) event is emitted.  Cancellation leaves `online` untouched. -/
theorem c5_run_node (msg : String) (online : Bool) :
    runNode (RunOutcome.err msg) online = (false, []) ∧
    runNode RunOutcome.cancelled online = (online, []) := by
  exact ⟨rfl, rfl⟩

/-- C2 counterexample: `start()` with the simulated radio configured and the
`pymc_core` dependency entirely unavailable completes, but the resulting
session has `online = false` — the code's only "Running" marker stays
unset, contradicting the claim that the session is still marked Running. -/
theorem c2_counterexample :
    startService ⟨true, false, true, true⟩ (some (List.replicate 32 0))
        (List.replicate 32 0) =
      Except.ok ⟨RadioKind.mock, true, false, false, false, false, []⟩ := by
  rfl

/-- C2 amended: with the simulated radio configured and the protocol-engine
dependency unavailable, `start()` completes without raising (whenever the
identity seed loads), but leaves the session offline — `online = false`
and no node — rather than marked Running; afterwards, for every channel
name, text and engine outcome, `send_channel_message` returns `false`
without raising. -/
theorem c2_start_degraded (file : Option (List Nat))
    (generated seed : List Nat) (file2 : Option (List Nat))
    (realRadioOk nodeInitOk : Bool) (channelName text : String)
    (engineResult : Except String Bool)
    (h : loadOrCreateSeed file generated = Except.ok (seed, file2)) :
    startService ⟨true, false, realRadioOk, nodeInitOk⟩ file generated =
      Except.ok ⟨RadioKind.mock, true, false, false, false, false, []⟩ ∧
    sendChannelMessage false channelName text engineResult = false := by
  constructor
  · simp only [startService, h]
    rfl
  · rfl

theorem c2_start_degraded_witness :
    loadOrCreateSeed none (List.replicate 32 0) =
      Except.ok (List.replicate 32 0, some (List.replicate 32 0)) ∧
    startService ⟨true, false, true, true⟩ none (List.replicate 32 0) =
      Except.ok ⟨RadioKind.mock, true, false, false, false, false, []⟩ ∧
    sendChannelMessage false "general" "hi" (Except.ok true) = false := by
  refine ⟨rfl, ?_⟩
  exact c2_start_degraded none (List.replicate 32 0) (List.replicate 32 0)
    (some (List.replicate 32 0)) true true "general" "hi" (Except.ok true)
    rfl

/-- C1 counterexample: a store row whose secret is missing.  After the
resync the store still holds `("Public", null)` while the configuration
holds `("Public", derived secret)`: the persistent store's channel rows and
the configuration's channel list do not contain the same set of
`(name, secret)` pairs, because the sync never writes the derived secret
back to the store. -/
theorem c1_counterexample :
    (syncChannelsToConfig ⟨[⟨"Public", none, false⟩], [], some []⟩).dbChannels.map
        (fun ch => (ch.name, ch.secret)) ≠
      (syncChannelsToConfig ⟨[⟨"Public", none, false⟩], [], some []⟩).cfgChannels.map
        (fun ch => (ch.name, some ch.secret)) := by
  decide

/-- C1 amended: after `_sync_channels_to_config`, the configuration's
channel list is exactly the store's rows with every missing (or empty)
secret filled deterministically from the name, the live adapter receives
that same list exactly when the engine exposes one (and is skipped
otherwise), and the store rows are left unchanged — so the store agrees
with the other two only when every stored secret is already present and
non-empty.  The filled secret is a function of the row's name and stored
secret alone (same name, same stored secret — same filled secret). -/
theorem c1_sync_channels (st : SyncState) (n : String) (s : Option String)
    (p p' : Bool) :
    (syncChannelsToConfig st).cfgChannels.map (fun ch => (ch.name, ch.secret)) =
      st.dbChannels.map (fun ch => (ch.name, fillSecret ch)) ∧
    (syncChannelsToConfig st).liveAdapter =
      st.liveAdapter.map (fun _ => (syncChannelsToConfig st).cfgChannels) ∧
    (syncChannelsToConfig st).dbChannels = st.dbChannels ∧
    fillSecret ⟨n, s, p⟩ = fillSecret ⟨n, s, p'⟩ ∧
    ((∀ ch ∈ st.dbChannels, ∃ sec, ch.secret = some sec ∧ sec ≠ "") →
      (syncChannelsToConfig st).cfgChannels.map (fun ch => (ch.name, some ch.secret)) =
        st.dbChannels.map (fun ch => (ch.name, ch.secret))) := by
  refine ⟨?_, rfl, rfl, rfl, ?_⟩
  · simp [syncChannelsToConfig]
  · intro hall
    simp only [syncChannelsToConfig, List.map_map]
    refine List.map_congr_left ?_
    intro ch hch
    obtain ⟨sec, hsec, hne⟩ := hall ch hch
    simp [Function.comp, fillSecret, hsec, hne]

theorem c1_sync_channels_witness :
    (syncChannelsToConfig ⟨[⟨"lobby", some "aa", false⟩], [], some []⟩).cfgChannels.map
        (fun ch => (ch.name, ch.secret)) =
      ([⟨"lobby", some "aa", false⟩] : List DbChannel).map
        (fun ch => (ch.name, fillSecret ch)) ∧
    (syncChannelsToConfig ⟨[⟨"lobby", some "aa", false⟩], [], some []⟩).cfgChannels.map
        (fun ch => (ch.name, some ch.secret)) =
      ([⟨"lobby", some "aa", false⟩] : List DbChannel).map
        (fun ch => (ch.name, ch.secret)) := by
  have h := c1_sync_channels ⟨[⟨"lobby", some "aa", false⟩], [], some []⟩ "x" none
    true false
  exact ⟨h.1, h.2.2.2.2 (by decide)⟩

/-- C8 counterexample: the stored contact keyed `"k"` has the non-empty name
`"Alice"`; an upsert supplying the empty-string name overwrites it with
`""`, because `COALESCE(excluded.name, name)` only protects against SQL
`NULL`, not against an empty string. -/
theorem c8_counterexample :
    upsertContact [⟨"k", some "Alice", some "k", none⟩] "k" (some "") (some "k")
        none = [⟨"k", some "", some "k", none⟩] ∧
    (some "" : Option String) ≠ some "Alice" := by
  exact ⟨by decide, by decide⟩

/-- C8 amended: `upsert_contact` de-duplicates by its key — when a row with
the key exists no row is appended (the row count is unchanged for every
supplied name) — and it never overwrites any stored name when the supplied
name is null/omitted; a supplied empty-string name, however, does
overwrite (see the counterexample). -/
theorem c8_upsert_contact (rows : List ContactRow) (k : String)
    (nm pk : Option String) (rs : Option Int)
    (hmem : rows.any (fun r => r.node_id == k) = true) :
    (upsertContact rows k nm pk rs).length = rows.length ∧
    (upsertContact rows k none pk rs).map (fun r => (r.node_id, r.name)) =
      rows.map (fun r => (r.node_id, r.name)) := by
  constructor
  · simp [upsertContact, hmem]
  · simp only [upsertContact, hmem, if_true, List.map_map]
    refine List.map_congr_left ?_
    intro r _
    by_cases hk : r.node_id == k
    · simp [Function.comp, hk, coalesce]
    · simp [Function.comp, hk]

theorem c8_upsert_contact_witness :
    (upsertContact [⟨"k", some "Alice", none, none⟩] "k" (some "Bob") (some "k")
        none).length = 1 ∧
    (upsertContact [⟨"k", some "Alice", none, none⟩] "k" none (some "k")
        none).map (fun r => (r.node_id, r.name)) =
      [("k", some "Alice")] := by
  have h := c8_upsert_contact [⟨"k", some "Alice", none, none⟩] "k" (some "Bob")
    (some "k") none (by decide)
  exact ⟨h.1, h.2⟩

/-- C10 counterexample: the `contacts` table is unique by `node_id`, not by
`public_key` — two rows with distinct node ids can share a public key, and
`refresh()` then rebuilds a cache holding two entries with the same
`public_key`, so the cache is not duplicate-free by public key under every
adapter operation. -/
theorem c10_counterexample :
    refreshContacts
        [⟨"a", some "x", some "0a", none⟩, ⟨"b", some "y", some "0a", none⟩] =
      [⟨"0a", "x", [], 0⟩, ⟨"0a", "y", [], 0⟩] ∧
    ¬ ((refreshContacts
        [⟨"a", some "x", some "0a", none⟩, ⟨"b", some "y", some "0a", none⟩]).map
          (fun c => c.public_key)).Nodup := by
  exact ⟨by decide, by decide⟩

/-- C10 amended: every contact `refresh()` builds has a non-empty
`public_key` (only rows with a truthy key are kept); the rebuilt cache is
duplicate-free by public key provided the truthy `public_key` values of
the database rows are themselves distinct (the table only guarantees
uniqueness of `node_id`, so this is a genuine extra condition); and
`add_contact` never appends an entry whose `public_key` is already in the
cache, so it preserves duplicate-freedom, and it preserves the
non-empty-key invariant when called with a non-empty key. -/
theorem c10_adapter_invariant (rows : List ContactRow)
    (contacts : List Contact) (db : List ContactRow) (pk n : String) :
    (∀ c ∈ refreshContacts rows, c.public_key ≠ "") ∧
    ((truthyKeys rows).Nodup →
      ((refreshContacts rows).map (fun c => c.public_key)).Nodup) ∧
    ((contacts.map (fun c => c.public_key)).Nodup →
      ((addContactA db contacts pk n).2.map (fun c => c.public_key)).Nodup) ∧
    (pk ≠ "" → (∀ c ∈ contacts, c.public_key ≠ "") →
      ∀ c ∈ (addContactA db contacts pk n).2, c.public_key ≠ "") := by
  refine ⟨fun c hc => mem_refreshContacts_key_ne rows c hc, ?_, ?_, ?_⟩
  · intro hnd
    rw [refreshContacts_keys]
    exact hnd
  · intro hnd
    simp only [addContactA]
    by_cases hany : contacts.any (fun existing => existing.public_key == pk) = true
    · rw [if_pos hany]
      exact hnd
    · rw [if_neg hany, List.map_append]
      rw [List.nodup_append]
      refine ⟨hnd, List.nodup_singleton _, ?_⟩
      intro a ha hb
      simp only [List.map_cons, List.map_nil, List.mem_cons,
        List.not_mem_nil, or_false] at hb
      subst hb
      rw [Bool.not_eq_true, List.any_eq_false] at hany
      rw [List.mem_map] at ha
      obtain ⟨x, hx, hxa⟩ := ha
      exact absurd (by simp [hxa]) (hany x hx)
  · intro hpk hall c hc
    simp only [addContactA] at hc
    by_cases hany : contacts.any (fun existing => existing.public_key == pk) = true
    · rw [if_pos hany] at hc
      exact hall c hc
    · rw [if_neg hany, List.mem_append] at hc
      rcases hc with hc | hc
      · exact hall c hc
      · rw [List.mem_singleton] at hc
        subst hc
        exact hpk

theorem c10_adapter_invariant_witness :
    ((truthyKeys [⟨"a", some "x", some "0a", none⟩]).Nodup →
      ((refreshContacts [⟨"a", some "x", some "0a", none⟩]).map
        (fun c => c.public_key)).Nodup) ∧
    ((([⟨"0a", "x", [], 0⟩] : List Contact).map (fun c => c.public_key)).Nodup →
      ((addContactA [] [⟨"0a", "x", [], 0⟩] "0b" "y").2.map
        (fun c => c.public_key)).Nodup) ∧
    (∀ c ∈ (addContactA [] [⟨"0a", "x", [], 0⟩] "0b" "y").2,
      c.public_key ≠ "") := by
  have h := c10_adapter_invariant [⟨"a", some "x", some "0a", none⟩]
    [⟨"0a", "x", [], 0⟩] [] "0b" "y"
  exact ⟨h.2.1, h.2.2.1, h.2.2.2 (by decide) (by decide)⟩

/-- C3 counterexample: the matched contact's display name is the empty
string, yet resolution returns the first 16 characters of its key
(`c.name or c.public_key[:16]`) instead of the display name, so the claim
that the first matching contact's display name is returned fails. -/
theorem c3_counterexample :
    resolveSender (some [⟨"aabb", "", [], 0⟩]) [0, 170] = ("aabb", "aabb") ∧
    (Contact.mk "aabb" "" [] 0).name ≠ "aabb" := by
  exact ⟨by decide, by decide⟩

/-- C3 amended: for an inbound direct-message payload with at least two
bytes, sender resolution scans the contacts in directory order against the
source-hash byte `payload[1]`; a contact matches when its key is non-empty,
parses as hex (invalid keys are skipped), and its first byte equals the
hash.  The first match wins — earlier-inserted contacts beat later ones —
and resolution returns its display name when that is non-empty, otherwise
the first 16 characters of its key, together with the full key.  When no
contact matches, the placeholder `"unknown-<two upper-case hex digits>"`
with an empty key is returned. -/
theorem c3_resolve_sender (contacts pre post : List Contact) (c : Contact)
    (payload : List Nat) (hlen : 2 ≤ payload.length) :
    ((∀ x ∈ contacts, contactMatches x (payload.getD 1 0) = false) →
      resolveSender (some contacts) payload =
        ("unknown-" ++ byteToHexUpper (payload.getD 1 0), "")) ∧
    ((∀ x ∈ pre, contactMatches x (payload.getD 1 0) = false) →
      contactMatches c (payload.getD 1 0) = true →
      resolveSender (some (pre ++ c :: post)) payload =
        (contactDisplay c, c.public_key)) := by
  have hnot : ¬ payload.length < 2 := Nat.not_lt.mpr hlen
  constructor
  · intro hall
    simp only [resolveSender, if_neg hnot]
    induction contacts with
    | nil => rfl
    | cons x xs ih =>
      have hx := hall x (List.mem_cons_self x xs)
      simp only [resolveScan, hx, Bool.false_eq_true, if_false]
      exact ih (fun y hy => hall y (List.mem_cons_of_mem x hy))
  · intro hpre hc
    simp only [resolveSender, if_neg hnot]
    induction pre with
    | nil =>
      simp only [List.nil_append, resolveScan, hc, if_true]
    | cons x xs ih =>
      have hx := hpre x (List.mem_cons_self x xs)
      simp only [List.cons_append, resolveScan, hx, Bool.false_eq_true, if_false]
      exact ih (fun y hy => hpre y (List.mem_cons_of_mem x hy))

theorem c3_resolve_sender_witness :
    resolveSender
        (some ([⟨"ff00", "Zed", [], 0⟩] ++
          Contact.mk "aa11" "Bob" [] 0 :: [⟨"aa22", "Eve", [], 0⟩])) [5, 170] =
      ("Bob", "aa11") := by
  have h := (c3_resolve_sender [] [⟨"ff00", "Zed", [], 0⟩]
    [⟨"aa22", "Eve", [], 0⟩] (Contact.mk "aa11" "Bob" [] 0) [5, 170]
    (by decide)).2 (by decide) (by decide)
  exact h

/-- C9 counterexample: the receive queue is an `asyncio.Queue()` constructed
with no `maxsize`, hence unbounded — for every candidate capacity a
reachable harness state (injecting `cap + 1` packets before any consumer
read) holds more packets than that capacity, so no fixed bound exists. -/
theorem c9_counterexample :
    ¬ ∃ cap : Nat, ∀ s : MockRadioState, MockReachable s →
      s.rxQueue.length ≤ cap := by
  rintro ⟨cap, h⟩
  have hr := injectedState_reachable (cap + 1)
  have hlen := h _ hr
  simp only [injectedState, List.length_replicate] at hlen
  omega

/-- C9 amended: the simulated radio's receive queue is unbounded — for
every `n` some reachable harness state holds more than `n` packets, and the
`inject` operation (`put_nowait`) applies in every state, growing the queue
without ever blocking or failing. -/
theorem c9_queue_unbounded (n : Nat) (s : MockRadioState) (data : List Nat) :
    (∃ t : MockRadioState, MockReachable t ∧ n < t.rxQueue.length) ∧
    MockStep s { s with rxQueue := s.rxQueue ++ [data] } := by
  constructor
  · refine ⟨injectedState (n + 1), injectedState_reachable (n + 1), ?_⟩
    simp [injectedState]
  · exact MockStep.injectRx s data

/-- C4: an advertisement whose payload is at least as long as the fixed
`[public_key][timestamp][signature]` header, whose application data the
engine codec decodes, and which carries a non-empty node name produces
exactly one `mesh.contact.new` event carrying the hex sender key and the
name, and leaves the contact adapter holding a contact with that name;
a payload shorter than the header, a codec failure, or a missing/empty
name each drop the advertisement silently — no event, no state change, no
error. -/
theorem c4_handle_advert (env : AdvertEnv) (db : List ContactRow)
    (cs : List Contact) (payload : List Nat) (d : AdvertDecoded) :
    (env.pubKeySize + env.timestampSize + env.signatureSize ≤ payload.length →
      env.decodeAppdata
          (payload.drop (env.pubKeySize + env.timestampSize + env.signatureSize)) =
        some d →
      advertName d ≠ "" →
      (handleAdvert env ⟨db, some cs⟩ payload).2 =
        [MeshEventM.contactNew (bytesToHexLower (payload.take env.pubKeySize))
          (advertName d)] ∧
      ∃ cs2, (handleAdvert env ⟨db, some cs⟩ payload).1.contactDb = some cs2 ∧
        ∃ c ∈ cs2, c.name = advertName d) ∧
    (payload.length < env.pubKeySize + env.timestampSize + env.signatureSize →
      handleAdvert env ⟨db, some cs⟩ payload = (⟨db, some cs⟩, [])) ∧
    (env.decodeAppdata
        (payload.drop (env.pubKeySize + env.timestampSize + env.signatureSize)) =
      none →
      handleAdvert env ⟨db, some cs⟩ payload = (⟨db, some cs⟩, [])) ∧
    (∀ d2, env.decodeAppdata
        (payload.drop (env.pubKeySize + env.timestampSize + env.signatureSize)) =
      some d2 →
      advertName d2 = "" →
      handleAdvert env ⟨db, some cs⟩ payload = (⟨db, some cs⟩, [])) := by
  refine ⟨?_, ?_, ?_, ?_⟩
  · intro h1 h2 h3
    have hEq : handleAdvert env ⟨db, some cs⟩ payload =
        (ensureContact ⟨db, some cs⟩
          (bytesToHexLower (payload.take env.pubKeySize)) (advertName d),
         [MeshEventM.contactNew (bytesToHexLower (payload.take env.pubKeySize))
           (advertName d)]) := by
      simp only [handleAdvert]
      rw [if_neg (Nat.not_lt.mpr h1), h2]
      exact if_neg h3
    rw [hEq]
    exact ⟨rfl, ensureContact_name_mem db cs
      (bytesToHexLower (payload.take env.pubKeySize)) (advertName d) h3⟩
  · intro h
    simp only [handleAdvert]
    rw [if_pos h]
  · intro h
    simp only [handleAdvert]
    by_cases hl : payload.length <
        env.pubKeySize + env.timestampSize + env.signatureSize
    · rw [if_pos hl]
    · rw [if_neg hl, h]
  · intro d2 h hname
    simp only [handleAdvert]
    by_cases hl : payload.length <
        env.pubKeySize + env.timestampSize + env.signatureSize
    · rw [if_pos hl]
    · rw [if_neg hl, h]
      exact if_pos hname

theorem c4_handle_advert_witness :
    (handleAdvert ⟨2, 1, 2, fun _ => some ⟨some "Alice", none⟩⟩
        ⟨[], some []⟩ [1, 2, 3, 4, 5]).2 =
      [MeshEventM.contactNew
        (bytesToHexLower (([1, 2, 3, 4, 5] : List Nat).take 2))
        (advertName ⟨some "Alice", none⟩)] ∧
    ∃ cs2, (handleAdvert ⟨2, 1, 2, fun _ => some ⟨some "Alice", none⟩⟩
        ⟨[], some []⟩ [1, 2, 3, 4, 5]).1.contactDb = some cs2 ∧
      ∃ c ∈ cs2, c.name = advertName ⟨some "Alice", none⟩ := by
  exact (c4_handle_advert ⟨2, 1, 2, fun _ => some ⟨some "Alice", none⟩⟩ [] []
    [1, 2, 3, 4, 5] ⟨some "Alice", none⟩).1 (by decide) rfl (by decide)



